import Mathlib

/-!
Verification of the list-view controller (`EntityList.tsx`) and the
repository-selection handler (`useGitSelected.tsx`) of the
amplication-client excerpt.

The TypeScript components are shallowly embedded: React `useState` values
become explicit function arguments, event handlers become pure state
transformers, the derived Apollo query variables become a pure function of
the local state, and the JSX row rendering becomes a pure function from an
entity record to a rendered-row record (with `Option` for values that the
source guards behind `&&` / `?.`).
-/

namespace Amplication

/-! ## Data model (from `models` as used by `EntityList.tsx`) -/

/-- `models.SortOrder` — the two GraphQL sort directions. -/
inductive SortOrder
  | Asc
  | Desc
deriving DecidableEq, Repr

/-- `models.QueryMode` — string-filter matching mode. -/
inductive QueryMode
  | Default
  | Insensitive
deriving DecidableEq, Repr

/-- `Account` as read by the rows: `account?.firstName`, `account?.lastName`. -/
structure Account where
  firstName : String
  lastName : String
deriving DecidableEq, Repr

/-- `lockedByUser` as read by the rows: only its optional `account` is used. -/
structure LockUser where
  account : Option Account
deriving DecidableEq, Repr

/-- A commit's `user`, read via `commit.user?.account?...`. -/
structure CommitUser where
  id : String
  account : Option Account
deriving DecidableEq, Repr

/-- `commit` of an entity version: `userId`, `message`, `createdAt`, `user`. -/
structure Commit where
  userId : String
  message : String
  createdAt : String
  user : Option CommitUser
deriving DecidableEq, Repr

/-- One element of `entityVersions`: `versionNumber` and optional `commit`. -/
structure EntityVersion where
  versionNumber : Nat
  commit : Option Commit
deriving DecidableEq, Repr

/-- `models.Entity`, restricted to the selection the `GET_ENTITIES` query
fetches and the rows read. -/
structure Entity where
  id : String
  displayName : String
  description : String
  lockedByUserId : Option String
  lockedByUser : Option LockUser
  entityVersions : List EntityVersion
deriving DecidableEq, Repr

/-! ## Local state of `EntityList` -/

/-- `type sortData = { field: string | null; order: number | null }`. -/
structure SortData where
  sortField : Option String
  order : Option Int
deriving DecidableEq, Repr

/-- `const NAME_FIELD = "displayName"`. -/
def NAME_FIELD : String := "displayName"

/-- `const INITIAL_SORT_DATA = { field: null, order: null }`. -/
def INITIAL_SORT_DATA : SortData :=
  { sortField := none, order := none }

/-- `const POLL_INTERVAL = 2000`. -/
def POLL_INTERVAL : Nat := 2000

/-- `handleSortChange(fieldName, order)`:
`setSortDir({ field: fieldName, order: order === null ? 1 : order })`.
The handler ignores the previous sort state and builds the new one from its
two arguments only. -/
def handleSortChange (fieldName : String) (order : Option Int) : SortData :=
  { sortField := some fieldName
    order := some (match order with | none => 1 | some o => o) }

/-- `handleSearchChange(value)`: `setSearchPhrase(value)` — stores the phrase
verbatim. -/
def handleSearchChange (value : String) : String := value

/-- `handleNewEntityClick`: `setNewEntity(!newEntity)` — flips the
create-dialog flag. -/
def handleNewEntityClick (newEntity : Bool) : Bool := !newEntity

/-! ## Derived query variables -/

/-- The `whereName` value: `{ contains: searchPhrase, mode: Insensitive }`. -/
structure StringFilter where
  contains : String
  mode : QueryMode
deriving DecidableEq, Repr

/-- The `orderBy` computed object `{ [sortDir.field || NAME_FIELD]: dir }`:
a single key (the field name) mapped to a direction. -/
structure OrderByInput where
  key : String
  direction : SortOrder
deriving DecidableEq, Repr

/-- The `variables` object passed to `useQuery(GET_ENTITIES, …)`. -/
structure QueryVariables where
  id : String
  orderBy : OrderByInput
  whereName : Option StringFilter
deriving DecidableEq, Repr

/-- JavaScript `sortDir.field || NAME_FIELD`: `null` and the empty string are
falsy, so both fall back to `NAME_FIELD`. -/
def orderByKey (sortField : Option String) : String :=
  match sortField with
  | none => NAME_FIELD
  | some s => if s = "" then NAME_FIELD else s

/-- The query variables derived from the local state, embedding
```
variables: {
  id: applicationId,
  orderBy: { [sortDir.field || NAME_FIELD]:
    sortDir.order === 1 ? models.SortOrder.Desc : models.SortOrder.Asc },
  whereName: searchPhrase !== ""
    ? { contains: searchPhrase, mode: models.QueryMode.Insensitive }
    : undefined,
}
``` -/
def queryVariables (applicationId : String) (sortDir : SortData)
    (searchPhrase : String) : QueryVariables :=
  { id := applicationId
    orderBy :=
      { key := orderByKey sortDir.sortField
        direction :=
          if sortDir.order = some 1 then SortOrder.Desc else SortOrder.Asc }
    whereName :=
      if searchPhrase ≠ "" then
        some { contains := searchPhrase, mode := QueryMode.Insensitive }
      else none }

/-! ## Row rendering -/

/-- The props handed to a `UserAvatar`: `firstName` and `lastName`, each of
which may be `undefined` when reached through `?.`. -/
structure AvatarProps where
  firstName : Option String
  lastName : Option String
deriving DecidableEq, Repr

/-- The observable content of one `DataGridRow` produced by the row mapper:
the lock-cell avatar is present only under `entity.lockedByUser && …`, the
commit avatar only under `latestVersion.commit && …`, and the message and
timestamp spans carry `latestVersion.commit?.message` /
`latestVersion.commit?.createdAt`. -/
structure RenderedRow where
  navigateUrl : String
  lockAvatar : Option AvatarProps
  displayName : String
  description : String
  versionLabel : String
  commitAvatar : Option AvatarProps
  commitMessage : Option String
  commitCreatedAt : Option String
deriving DecidableEq, Repr

/-- The row mapper body
`const [latestVersion] = entity.entityVersions; … V{latestVersion.versionNumber} …`.
When `entityVersions` is empty, the destructured `latestVersion` is
`undefined` and `latestVersion.versionNumber` throws a `TypeError`; that
failure is `none`. -/
def renderRow (applicationId : String) (entity : Entity) : Option RenderedRow :=
  match entity.entityVersions with
  | [] => none
  | latestVersion :: _ =>
    some
      { navigateUrl := "/" ++ applicationId ++ "/entities/" ++ entity.id
        lockAvatar :=
          match entity.lockedByUser with
          | none => none
          | some u =>
            some { firstName := u.account.map Account.firstName
                   lastName := u.account.map Account.lastName }
        displayName := entity.displayName
        description := entity.description
        versionLabel := "V" ++ toString latestVersion.versionNumber
        commitAvatar :=
          match latestVersion.commit with
          | none => none
          | some c =>
            some { firstName := (c.user.bind CommitUser.account).map Account.firstName
                   lastName := (c.user.bind CommitUser.account).map Account.lastName }
        commitMessage := latestVersion.commit.map Commit.message
        commitCreatedAt := latestVersion.commit.map Commit.createdAt }

/-! ## Error surfacing -/

/-- Modelled from the spec: `formatError` lives in `../util/error`, outside
this excerpt; the spec says query errors are "formatted into a user-facing
string". It is modelled as a function of the optional query error that
yields the user-facing message. -/
def formatError (error : Option String) : String :=
  match error with
  | none => ""
  | some message => message

/-- The error-related and row-related output of one render of `EntityList`:
`data?.entities.map(renderRow)`, `Snackbar open={Boolean(error)}
message={errorMessage}` with `errorMessage = formatError(error)`. -/
structure EntityListView where
  rows : List (Option RenderedRow)
  snackbarOpen : Bool
  snackbarMessage : String
deriving DecidableEq, Repr

/-- One render of `EntityList` as a function of the query result.
`data` is `none` while no data has arrived (`data?.entities` short-circuits
to no rows); `error` is the optional query error. -/
def entityListView (applicationId : String) (data : Option (List Entity))
    (error : Option String) : EntityListView :=
  { rows :=
      match data with
      | none => []
      | some entities => entities.map (renderRow applicationId)
    snackbarOpen := error.isSome
    snackbarMessage := formatError error }

/-! ## Polling lifecycle

The effect
```
useEffect(() => {
  startPolling(POLL_INTERVAL);
  return () => { stopPolling(); };
}, [stopPolling, startPolling]);
```
has a dependency array of the two stable Apollo callbacks, so per React's
`useEffect` contract the body runs once when the component mounts and the
returned cleanup runs once when it unmounts. The embedding records the
poll-control calls each of the two runs performs and concatenates them over
repeated mount/unmount cycles. -/

/-- A call into the Query Client's poll controls. -/
inductive PollAction
  | start (interval : Nat)
  | stop
deriving DecidableEq, Repr

/-- The calls performed by the effect body on mount:
`startPolling(POLL_INTERVAL)`. -/
def pollingEffect : List PollAction := [PollAction.start POLL_INTERVAL]

/-- The calls performed by the effect's cleanup on unmount: `stopPolling()`. -/
def pollingCleanup : List PollAction := [PollAction.stop]

/-- The poll-control trace of `n` complete mount/unmount cycles of the view. -/
def mountUnmountTrace : Nat → List PollAction
  | 0 => []
  | n + 1 => (pollingEffect ++ pollingCleanup) ++ mountUnmountTrace n

/-- Number of `startPolling` calls in a trace. -/
def countStarts (t : List PollAction) : Nat :=
  t.countP (fun a => match a with | PollAction.start _ => true | PollAction.stop => false)

/-- Number of `stopPolling` calls in a trace. -/
def countStops (t : List PollAction) : Nat :=
  t.countP (fun a => match a with | PollAction.start _ => false | PollAction.stop => true)

/-! ## Repository-selection handler (`useGitSelected.tsx`) -/

/-- `GitRepo` as used by the handler: only `fullName` is read. -/
structure GitRepo where
  fullName : String
deriving DecidableEq, Repr

/-- The `variables` object of the `ENABLE_SYNC_WITH_GITHUB` mutation call. -/
structure EnableSyncVariables where
  githubRepo : String
  githubBranch : Option String
  appId : String
deriving DecidableEq, Repr

/-- `handleRepoSelected(data)`: the variables it passes to
`enableSyncWithGithub` — `{ githubRepo: data.fullName, githubBranch: null,
appId: appId }`. -/
def handleRepoSelected (appId : String) (data : GitRepo) : EnableSyncVariables :=
  { githubRepo := data.fullName
    githubBranch := none
    appId := appId }

/-- The outcome of one `handleRepoSelected` call, given how the mutation's
promise settles. The source appends `.catch(console.error)`, so a rejection
is consumed and logged; the handler itself never rethrows. `Except.ok logs`
means the call returned normally to its caller after logging `logs`. -/
def handleRepoSelectedOutcome (result : Except String Unit) :
    Except String (List String) :=
  match result with
  | Except.ok _ => Except.ok []
  | Except.error e => Except.ok [e]

/-! ## Theorems -/

/-- C1 counterexample: calling `setSort("description", null)` and deriving the
query variables yields a descending `orderBy` direction, not ascending — the
handler normalizes a `null` direction to the order value `1`, and the derived
variables map order `1` to `SortOrder.Desc`. -/
theorem setSort_null_not_asc_counterexample :
    (queryVariables "app-1" (handleSortChange "description" none) "").orderBy
      = { key := "description", direction := SortOrder.Desc } ∧
    (queryVariables "app-1" (handleSortChange "description" none) "").orderBy.direction
      ≠ SortOrder.Asc := by
  decide

/-- C1 (amended): for every call `setSort(field, direction)` with
`direction = null`, the stored sort direction normalizes to the order value
`1`, so the derived query variables map the sort field to descending order. -/
theorem setSort_null_direction_desc
    (applicationId fieldName searchPhrase : String) :
    (queryVariables applicationId (handleSortChange fieldName none)
        searchPhrase).orderBy.direction = SortOrder.Desc := by
  simp [queryVariables, handleSortChange]

/-- C2 counterexample: the sort state with the empty string as its (set,
non-null) field derives the `orderBy` key `"displayName"`, not the given
field `""` — JavaScript `||` treats the empty string as falsy. -/
theorem orderBy_key_empty_field_counterexample :
    (queryVariables "app-1" { sortField := some "", order := none } "").orderBy.key
      = "displayName" ∧
    (queryVariables "app-1" { sortField := some "", order := none } "").orderBy.key
      ≠ "" := by
  decide

/-- C2 (amended): the derived `orderBy` key is the given sort field when a
non-empty one is set, and defaults to `"displayName"` both when the sort
field is unset (`null`) and when it is the empty string. -/
theorem orderBy_key_field_or_default
    (applicationId searchPhrase f : String) (order : Option Int)
    (h : f ≠ "") :
    (queryVariables applicationId { sortField := some f, order := order }
        searchPhrase).orderBy.key = f ∧
    (queryVariables applicationId { sortField := none, order := order }
        searchPhrase).orderBy.key = "displayName" ∧
    (queryVariables applicationId { sortField := some "", order := order }
        searchPhrase).orderBy.key = "displayName" := by
  refine ⟨?_, rfl, rfl⟩
  simp [queryVariables, orderByKey, h]

/-- C2 witness: instantiating at the field `"description"`. -/
theorem orderBy_key_field_or_default_witness :
    (queryVariables "app-1" { sortField := some "description", order := none }
        "").orderBy.key = "description" :=
  (orderBy_key_field_or_default "app-1" "" "description" none (by decide)).1

/-- C3: the derived query variables carry no name filter exactly when the
search phrase is empty, and for every non-empty phrase they carry a
case-insensitive "contains" filter with that exact phrase. -/
theorem whereName_filter (applicationId searchPhrase : String)
    (sortDir : SortData) :
    ((queryVariables applicationId sortDir searchPhrase).whereName = none
      ↔ searchPhrase = "") ∧
    (searchPhrase ≠ "" →
      (queryVariables applicationId sortDir searchPhrase).whereName =
        some { contains := searchPhrase, mode := QueryMode.Insensitive }) := by
  unfold queryVariables
  by_cases h : searchPhrase = "" <;> simp [h]

/-- C3 witness: the phrase `"foo"` yields the case-insensitive contains
filter, and the empty phrase yields no filter. -/
theorem whereName_filter_witness :
    (queryVariables "app-1" INITIAL_SORT_DATA "foo").whereName =
      some { contains := "foo", mode := QueryMode.Insensitive } ∧
    (queryVariables "app-1" INITIAL_SORT_DATA "").whereName = none :=
  ⟨(whereName_filter "app-1" "foo" INITIAL_SORT_DATA).2 (by decide),
   (whereName_filter "app-1" "" INITIAL_SORT_DATA).1.mpr rfl⟩

/-- C4: toggling the create-dialog flag twice returns it to its original
value, and each single toggle flips it. -/
theorem toggleCreateDialog_involutive (newEntity : Bool) :
    handleNewEntityClick (handleNewEntityClick newEntity) = newEntity ∧
    handleNewEntityClick newEntity ≠ newEntity := by
  cases newEntity <;> simp [handleNewEntityClick]

lemma countStarts_append (s t : List PollAction) :
    countStarts (s ++ t) = countStarts s + countStarts t :=
  List.countP_append _ _ _

lemma countStops_append (s t : List PollAction) :
    countStops (s ++ t) = countStops s + countStops t :=
  List.countP_append _ _ _

lemma pollTrace_starts (n : Nat) : countStarts (mountUnmountTrace n) = n := by
  induction n with
  | zero => rfl
  | succ m ih =>
    rw [mountUnmountTrace, countStarts_append, ih]
    have h1 : countStarts (pollingEffect ++ pollingCleanup) = 1 := rfl
    omega

lemma pollTrace_stops (n : Nat) : countStops (mountUnmountTrace n) = n := by
  induction n with
  | zero => rfl
  | succ m ih =>
    rw [mountUnmountTrace, countStops_append, ih]
    have h1 : countStops (pollingEffect ++ pollingCleanup) = 1 := rfl
    omega

lemma pollTrace_interval (n : Nat) :
    (mountUnmountTrace n).all
      (fun a => match a with
        | PollAction.start i => i == 2000
        | PollAction.stop => true) = true := by
  induction n with
  | zero => rfl
  | succ m ih =>
    rw [mountUnmountTrace, List.all_append, ih]
    rfl

/-- C5: the mount effect issues exactly one `startPolling` call, at the fixed
interval `2000`, and the unmount cleanup issues exactly one `stopPolling`
call; over any number `n` of repeated mount/unmount cycles the trace holds
exactly `n` starts and `n` stops (every start paired with one stop), and
every start in the trace uses the interval `2000`. -/
theorem polling_start_stop_paired (n : Nat) :
    pollingEffect = [PollAction.start 2000] ∧
    pollingCleanup = [PollAction.stop] ∧
    countStarts (mountUnmountTrace n) = n ∧
    countStops (mountUnmountTrace n) = n ∧
    (mountUnmountTrace n).all
      (fun a => match a with
        | PollAction.start i => i == 2000
        | PollAction.stop => true) = true :=
  ⟨rfl, rfl, pollTrace_starts n, pollTrace_stops n, pollTrace_interval n⟩

/-- C6: the selection handler always invokes the mutation with
`githubRepo` equal to the selected repository's full name, `githubBranch`
equal to `null`, and `appId` equal to the owning application's identifier;
in particular selecting `"org/repo"` for application `"app-1"` yields exactly
those variables. -/
theorem repoSelected_variables (appId : String) (data : GitRepo) :
    handleRepoSelected appId data =
      { githubRepo := data.fullName, githubBranch := none, appId := appId } ∧
    handleRepoSelected "app-1" { fullName := "org/repo" } =
      { githubRepo := "org/repo", githubBranch := none, appId := "app-1" } :=
  ⟨rfl, rfl⟩

/-- C7: however the mutation's promise settles, the selection handler returns
normally to its caller (the outcome is always `ok`, never a propagated
throw), and a rejection with error `e` is consumed and logged as `[e]`. -/
theorem repoSelected_fire_and_forget (result : Except String Unit) :
    (handleRepoSelectedOutcome result).isOk = true ∧
    (∀ e, result = Except.error e →
      handleRepoSelectedOutcome result = Except.ok [e]) := by
  cases result with
  | ok _ => exact ⟨rfl, fun e h => by cases h⟩
  | error e => exact ⟨rfl, fun f h => by cases h; rfl⟩

/-- C7 witness: a mutation failure `"network error"` is logged and the
handler still returns normally. -/
theorem repoSelected_fire_and_forget_witness :
    (handleRepoSelectedOutcome (Except.error "network error")).isOk = true ∧
    handleRepoSelectedOutcome (Except.error "network error") =
      Except.ok ["network error"] :=
  ⟨(repoSelected_fire_and_forget (Except.error "network error")).1,
   (repoSelected_fire_and_forget (Except.error "network error")).2
     "network error" rfl⟩

/-- C8: with a query error present the view opens the notification with the
formatted message, with no error the notification is closed, and the rows
rendered from the available data are the same with and without the error —
the error does not halt rendering of available entity data. -/
theorem query_error_notification (applicationId m : String)
    (data : Option (List Entity)) :
    (entityListView applicationId data (some m)).rows =
      (entityListView applicationId data none).rows ∧
    (entityListView applicationId data (some m)).snackbarOpen = true ∧
    (entityListView applicationId data (some m)).snackbarMessage =
      formatError (some m) ∧
    (entityListView applicationId data none).snackbarOpen = false := by
  cases data <;> exact ⟨rfl, rfl, rfl, rfl⟩

/-- C9: an entity with no lock owner whose latest version has no commit
renders to a row with no lock avatar, no commit avatar, no commit message and
no commit timestamp, yet with the version label `"V" ++ versionNumber`; the
render succeeds (`some`), not a render error. -/
theorem row_missing_optionals (applicationId : String) (entity : Entity)
    (v : EntityVersion) (rest : List EntityVersion)
    (hvs : entity.entityVersions = v :: rest)
    (hlock : entity.lockedByUser = none)
    (hcommit : v.commit = none) :
    renderRow applicationId entity =
      some { navigateUrl := "/" ++ applicationId ++ "/entities/" ++ entity.id
             lockAvatar := none
             displayName := entity.displayName
             description := entity.description
             versionLabel := "V" ++ toString v.versionNumber
             commitAvatar := none
             commitMessage := none
             commitCreatedAt := none } := by
  rw [renderRow, hvs]
  simp [hlock, hcommit]

/-- C9 witness: a concrete unlocked entity whose single version `3` carries
no commit renders to the expected bare row with label `"V3"`. -/
theorem row_missing_optionals_witness :
    renderRow "app-1"
      { id := "e1", displayName := "Order", description := "orders",
        lockedByUserId := none, lockedByUser := none,
        entityVersions := [{ versionNumber := 3, commit := none }] } =
      some { navigateUrl := "/" ++ "app-1" ++ "/entities/" ++ "e1"
             lockAvatar := none
             displayName := "Order"
             description := "orders"
             versionLabel := "V" ++ toString 3
             commitAvatar := none
             commitMessage := none
             commitCreatedAt := none } :=
  row_missing_optionals "app-1" _ { versionNumber := 3, commit := none } []
    rfl rfl rfl

/-- C10: the row mapper unconditionally destructures the first entity
version, so an entity whose `entityVersions` list is empty fails to render
(the dereference of the absent version is a render error, modelled as
`none`), rather than rendering a row with the version absent. -/
theorem render_requires_version (applicationId : String) (entity : Entity)
    (h : entity.entityVersions = []) :
    renderRow applicationId entity = none := by
  rw [renderRow, h]

/-- C10 witness: a concrete entity with an empty version list fails to
render. -/
theorem render_requires_version_witness :
    renderRow "app-1"
      { id := "e1", displayName := "Order", description := "orders",
        lockedByUserId := none, lockedByUser := none,
        entityVersions := [] } = none :=
  render_requires_version "app-1" _ rfl

end Amplication
